import Mathlib

/-!
Shallow embedding of the eBay Browse API connection class
(`ebaysdk/browse/__init__.py`) and proofs about its request-building,
response-error-extraction and OAuth token-caching logic.

Python values that flow through the request builders are modelled by
`PyValue`; a Python `dict` is modelled as an association list with the
keys in insertion order (`PyDict`).  Fallible code is modelled with
`Except`; the HTTP client, the `authlib` OAuth session and the config
loader are external collaborators and enter the model only through
their observable results (a fetch oracle, plain config parameters).
-/

/-- A Python value as it appears in Browse API request dictionaries and
JSON response bodies: `None`, a string, an integer or a boolean. -/
inductive PyValue where
  | none
  | str (s : String)
  | int (n : Int)
  | bool (b : Bool)
deriving DecidableEq, Repr

/-- A Python `dict` with `String` keys, as an association list in
insertion order (Python dicts preserve insertion order and have unique
keys). -/
abbrev PyDict := List (String × PyValue)

/-- Python `str(value)` on the values of `PyValue`. -/
def pyStr : PyValue → String
  | PyValue.none => "None"
  | PyValue.str s => s
  | PyValue.int n => toString n
  | PyValue.bool b => if b then "True" else "False"

/-- `str` of an optional field (`dict.get` result): `None` renders as
the string `None`, as in a Python f-string. -/
def pyOptStr : Option PyValue → String
  | Option.none => "None"
  | Option.some v => pyStr v

/-- Modelled from the spec: `ebaysdk.utils.smart_encode` is not under
`src/`; the spec says GET parameters are "encoded" into the query
mapping and its example carries the value `PRODUCT` through unchanged
(`\x7bfieldgroups:PRODUCT\x7d`), so encoding is the identity on values. -/
def smart_encode (v : PyValue) : PyValue := v

/-- JSON escaping of one character, as `json.dumps` does it (quotes
and backslashes; the request values in scope contain nothing else
needing escape). -/
def jsonEscapeChar (c : Char) : List Char :=
  if c = '\\' then ['\\', '\\'] else if c = '"' then ['\\', '"'] else [c]

/-- JSON string escaping used by `json.dumps`. -/
def jsonEscape (s : String) : String := String.mk (s.data.flatMap jsonEscapeChar)

/-- `json.dumps` on a single `PyValue`. -/
def jsonOfValue : PyValue → String
  | PyValue.none => "null"
  | PyValue.str s => "\"" ++ jsonEscape s ++ "\""
  | PyValue.int n => toString n
  | PyValue.bool b => if b then "true" else "false"

/-- `json.dumps` on a dict, with the default separators. -/
def jsonDumps (d : PyDict) : String :=
  "\x7b" ++
    String.intercalate ", "
      (d.map (fun kv => "\"" ++ jsonEscape kv.1 ++ "\": " ++ jsonOfValue kv.2)) ++
  "\x7d"

/-- The HTTP method selection of `Connection.build_request`
(lines 156-159): POST for `searchByImage` and `checkCompatibility`,
GET for every other verb. -/
def determine_method (verb : String) : String :=
  if verb = "searchByImage" ∨ verb = "checkCompatibility" then "POST" else "GET"

/-- `Connection.build_request_data`: POST verbs with a dict get the
dict JSON-serialized as the body; everything else gets the empty
string.  A non-dict Python argument (`None`) is `Option.none` here. -/
def build_request_data (verb : String) (data : Option PyDict) : String :=
  match data with
  | Option.some d =>
      if verb = "searchByImage" ∨ verb = "checkCompatibility" then jsonDumps d else ""
  | Option.none => ""

/-- `Connection.build_request_query`: for non-POST verbs with a dict,
the comprehension keeping every entry whose key is not `item_id`-consumed
by the path (for `getItem`/`checkCompatibility`) and whose value is not
`None`, values passed through `smart_encode`; otherwise `None`. -/
def build_request_query (verb : String) (data : Option PyDict) :
    Option (List (String × PyValue)) :=
  match data with
  | Option.some d =>
      if verb = "searchByImage" ∨ verb = "checkCompatibility" then Option.none
      else
        Option.some
          (d.filterMap (fun kv =>
            if (¬(verb = "getItem" ∨ verb = "checkCompatibility") ∨ kv.1 ≠ "item_id")
                ∧ kv.2 ≠ PyValue.none
            then Option.some (kv.1, smart_encode kv.2) else Option.none))
  | Option.none => Option.none

/-- A verb's URL path suffix: either a fixed path or a path with the
`item_id` placeholder (`pre ++ \x7bitem_id\x7d ++ post`), which
`str.format` fills in. -/
inductive PathTemplate where
  | plain (s : String)
  | withItemId (pre post : String)
deriving DecidableEq, Repr

/-- The `endpoint_map` table of `Connection.build_request_url`, with the
`/\x7bverb\x7d` fallback for unknown verbs. -/
def endpoint_map (verb : String) : PathTemplate :=
  match verb with
  | "search" => PathTemplate.plain "/item_summary/search"
  | "searchByImage" => PathTemplate.plain "/item_summary/search_by_image"
  | "getItem" => PathTemplate.withItemId "/item/" ""
  | "getItemByLegacyId" => PathTemplate.plain "/item/get_item_by_legacy_id"
  | "getItems" => PathTemplate.plain "/item/"
  | "getItemsByItemGroup" => PathTemplate.plain "/item/get_items_by_item_group"
  | "checkCompatibility" => PathTemplate.withItemId "/item/" "/check_compatibility"
  | other => PathTemplate.plain ("/" ++ other)

/-- `template.format(item_id=v)`: substitute `str(v)` for the
placeholder; a plain template has nothing to substitute. -/
def formatTemplate : PathTemplate → PyValue → String
  | PathTemplate.plain s, _ => s
  | PathTemplate.withItemId pre post, v => pre ++ pyStr v ++ post

/-- An unformatted template rendered back to its literal path string. -/
def rawTemplate : PathTemplate → String
  | PathTemplate.plain s => s
  | PathTemplate.withItemId pre post => pre ++ "\x7bitem_id\x7d" ++ post

/-- The `HTTP_SSL` scheme table of `ebaysdk.connection` (not under
`src/`; the spec fixes requests to `https://<domain>`, and the config
forces `https = True`): `True` maps to `https`, `False` to `http`. -/
def httpSsl (https : Bool) : String := if https then "https" else "http"

/-- `Connection.build_request_url`: base URL from scheme, domain and
uri; verb mapped through `endpoint_map`; for `getItem` and
`checkCompatibility` a falsy or `item_id`-less request dict raises
`ValueError`, otherwise `item_id` is substituted into the path. -/
def build_request_url (https : Bool) (domain uri : String)
    (requestDict : Option PyDict) (verb : String) : Except String String :=
  let baseUrl := httpSsl https ++ "://" ++ domain ++ uri
  let endpoint := endpoint_map verb
  if verb = "getItem" ∨ verb = "checkCompatibility" then
    match requestDict with
    | Option.none =>
        Except.error "item_id is required for getItem and checkCompatibility"
    | Option.some d =>
        if d.isEmpty then
          Except.error "item_id is required for getItem and checkCompatibility"
        else
          match List.lookup "item_id" d with
          | Option.none =>
              Except.error "item_id is required for getItem and checkCompatibility"
          | Option.some v => Except.ok (baseUrl ++ formatTemplate endpoint v)
  else Except.ok (baseUrl ++ rawTemplate endpoint)

/-! ## Response processing -/

/-- One entry of the JSON `errors` / `warnings` arrays: `dict.get` on
`errorId`, `category` and `message` each yields a value or `None`. -/
structure ApiErrorEntry where
  errorId : Option PyValue
  category : Option PyValue
  message : Option PyValue
deriving DecidableEq, Repr

/-- A parsed 200-response JSON body; `response_data.get` defaults both
arrays to `[]` when the key is absent, so absent arrays are `[]` here. -/
structure RespBody where
  errors : List ApiErrorEntry
  warnings : List ApiErrorEntry
deriving DecidableEq, Repr

/-- The observable part of an HTTP response: status code, reason
phrase, and the JSON body (`response.json()`). -/
structure HttpResponse where
  statusCode : Nat
  reason : String
  body : RespBody
deriving DecidableEq, Repr

/-- The connection-instance fields touched by response processing:
`self.verb`, the `_resp_body_errors` / `_resp_body_warnings` /
`_resp_codes` caches and `_response_error`. -/
structure BrowseState where
  verb : Option String
  respBodyErrors : List String
  respBodyWarnings : List String
  respCodes : List (Option PyValue)
  responseError : Option String
deriving DecidableEq, Repr

/-- `Connection.process_response`: a status other than 200 records the
HTTP reason phrase in `_response_error`; a 200 leaves the state alone.
It is a total function: no exception is raised either way. -/
def process_response (st : BrowseState) (resp : HttpResponse) : BrowseState :=
  if resp.statusCode ≠ 200 then { st with responseError := Option.some resp.reason }
  else st

/-- The f-string `Category: ..., Code: ..., ...` built for each
errors/warnings entry. -/
def formatEntry (e : ApiErrorEntry) : String :=
  "Category: " ++ pyOptStr e.category ++ ", Code: " ++ pyOptStr e.errorId ++
    ", " ++ pyOptStr e.message

/-- One `for` loop of `_get_resp_body_errors`: walk the entries,
appending each formatted message, and appending the entry's `errorId`
to the shared `resp_codes` accumulator only when it is not already
present. -/
def procEntries : List ApiErrorEntry → List String → List (Option PyValue) →
    List String × List (Option PyValue)
  | [], msgs, codes => (msgs, codes)
  | e :: rest, msgs, codes =>
      procEntries rest (msgs ++ [formatEntry e])
        (if e.errorId ∈ codes then codes else codes ++ [e.errorId])

/-- `Connection._get_resp_body_errors`: return the cached error list if
non-empty; return `[]` without touching the body when the verb is unset
or the status is not 200; otherwise walk the `errors` array and then
the `warnings` array (sharing one `resp_codes` list), store all three
results on the instance, and return the error strings.  (The logging at
the end only emits and is not modelled.) -/
def get_resp_body_errors (st : BrowseState) (resp : HttpResponse) :
    List String × BrowseState :=
  if st.respBodyErrors ≠ [] then (st.respBodyErrors, st)
  else if st.verb = Option.none ∨ resp.statusCode ≠ 200 then ([], st)
  else
    let pe := procEntries resp.body.errors [] []
    let pw := procEntries resp.body.warnings [] pe.2
    (pe.1,
      { st with
          respBodyErrors := pe.1
          respBodyWarnings := pw.1
          respCodes := pw.2 })

/-! ## OAuth token cache -/

/-- The cached OAuth2 token: `access_token` plus the expiry instant the
`authlib` token carries (`\x7baccess_token, expires_at\x7d` in the
spec's data model). -/
structure OAuthToken where
  accessToken : String
  expiresAt : Nat
deriving DecidableEq, Repr

/-- `OAuth2Token.is_expired` of the external `authlib` collaborator,
reduced to its observable: the token is expired once the current time
has reached `expires_at`. -/
def tokenIsExpired (now : Nat) (t : OAuthToken) : Bool := t.expiresAt ≤ now

/-- The token slot of the connection instance: `Option.none` models the
`_token` attribute not existing yet (`hasattr` false). -/
structure TokenCacheState where
  token : Option OAuthToken
deriving DecidableEq, Repr

/-- The two exception kinds `access_token` can raise: `ValueError` for
missing credentials, `ebaysdk.exception.ConnectionError` wrapping an
OAuth/request failure. -/
inductive TokenError where
  | valueError (msg : String)
  | connectionError (msg : String)
deriving DecidableEq, Repr

/-- Python truthiness of a config credential (`not client_id`): a
missing value or the empty string is falsy. -/
def configTruthy : Option String → Bool
  | Option.none => false
  | Option.some s => s ≠ ""

/-- The refresh branch of `Connection.access_token` (lines 237-258):
check credentials, then perform the client-credentials fetch — its
outcome supplied by the `fetchResult` oracle — wrapping any
`OAuth2Error`/`RequestException` in a `ConnectionError`.  The second
component counts the network calls performed. -/
def fetchAndCacheToken (appid certid : Option String)
    (fetchResult : Except String OAuthToken) :
    Except TokenError (String × TokenCacheState) × Nat :=
  if ¬configTruthy appid ∨ ¬configTruthy certid then
    (Except.error (TokenError.valueError
      "appid (client id) and certid (client secret) are required for OAuth"), 0)
  else
    match fetchResult with
    | Except.ok tok => (Except.ok (tok.accessToken, ⟨Option.some tok⟩), 1)
    | Except.error e =>
        (Except.error (TokenError.connectionError
          ("Failed to get access token: " ++ e)), 1)

/-- `Connection.access_token`: if a token is cached and not expired,
return its `access_token` field with the cache untouched and no network
call; otherwise run the refresh branch. -/
def access_token (appid certid : Option String) (st : TokenCacheState)
    (now : Nat) (fetchResult : Except String OAuthToken) :
    Except TokenError (String × TokenCacheState) × Nat :=
  match st.token with
  | Option.none => fetchAndCacheToken appid certid fetchResult
  | Option.some t =>
      if tokenIsExpired now t then fetchAndCacheToken appid certid fetchResult
      else (Except.ok (t.accessToken, st), 0)

/-! ## Helper lemmas -/

/-- When a refresh is needed (no cached token, or an expired one),
`access_token` runs the refresh branch. -/
theorem access_token_refresh_eq (appid certid : Option String)
    (st : TokenCacheState) (now : Nat) (fetchResult : Except String OAuthToken)
    (h : st.token = Option.none ∨
         ∃ t, st.token = Option.some t ∧ tokenIsExpired now t = true) :
    access_token appid certid st now fetchResult =
      fetchAndCacheToken appid certid fetchResult := by
  rcases h with h | ⟨t, ht, hexp⟩
  · simp [access_token, h]
  · simp [access_token, ht, hexp]

/-- The message component of `procEntries`: each entry contributes
exactly one formatted string, appended in order. -/
theorem procEntries_fst (l : List ApiErrorEntry) :
    ∀ (msgs : List String) (codes : List (Option PyValue)),
      (procEntries l msgs codes).1 = msgs ++ l.map formatEntry := by
  induction l with
  | nil => intro msgs codes; simp [procEntries]
  | cons e rest ih =>
      intro msgs codes
      simp [procEntries, ih]

/-- Membership in the `resp_codes` accumulator after one loop: a code
is present iff it was already present or is the `errorId` of one of the
walked entries. -/
theorem procEntries_snd_mem (c : Option PyValue) (l : List ApiErrorEntry) :
    ∀ (msgs : List String) (codes : List (Option PyValue)),
      (c ∈ (procEntries l msgs codes).2 ↔
        c ∈ codes ∨ c ∈ l.map (fun e => e.errorId)) := by
  induction l with
  | nil => intro msgs codes; simp [procEntries]
  | cons e rest ih =>
      intro msgs codes
      by_cases h : e.errorId ∈ codes
      · rw [procEntries, if_pos h, ih]
        simp only [List.map_cons, List.mem_cons]
        constructor
        · rintro (hc | hc)
          · exact Or.inl hc
          · exact Or.inr (Or.inr hc)
        · rintro (hc | hc | hc)
          · exact Or.inl hc
          · exact Or.inl (hc ▸ h)
          · exact Or.inr hc
      · rw [procEntries, if_neg h, ih]
        simp only [List.mem_append, List.mem_singleton, List.map_cons,
          List.mem_cons]
        tauto

/-- The loop preserves the no-duplicates invariant of `resp_codes`. -/
theorem procEntries_snd_nodup (l : List ApiErrorEntry) :
    ∀ (msgs : List String) (codes : List (Option PyValue)),
      codes.Nodup → (procEntries l msgs codes).2.Nodup := by
  induction l with
  | nil => intro msgs codes hnd; simpa [procEntries] using hnd
  | cons e rest ih =>
      intro msgs codes hnd
      by_cases h : e.errorId ∈ codes
      · rw [procEntries, if_pos h]
        exact ih _ _ hnd
      · rw [procEntries, if_neg h]
        refine ih _ _ ?_
        simp [List.nodup_append, hnd, h]

/-- The loop only appends: the resulting `resp_codes` is the incoming
accumulator followed by fresh codes drawn from the walked entries. -/
theorem procEntries_snd_append (l : List ApiErrorEntry) :
    ∀ (msgs : List String) (codes : List (Option PyValue)),
      ∃ t, (procEntries l msgs codes).2 = codes ++ t ∧
        ∀ c ∈ t, c ∉ codes ∧ c ∈ l.map (fun e => e.errorId) := by
  induction l with
  | nil => intro msgs codes; exact ⟨[], by simp [procEntries], by simp⟩
  | cons e rest ih =>
      intro msgs codes
      by_cases h : e.errorId ∈ codes
      · rw [procEntries, if_pos h]
        obtain ⟨t, ht, hp⟩ := ih (msgs ++ [formatEntry e]) codes
        refine ⟨t, ht, fun c hc => ⟨(hp c hc).1, ?_⟩⟩
        simp only [List.map_cons, List.mem_cons]
        exact Or.inr (hp c hc).2
      · rw [procEntries, if_neg h]
        obtain ⟨t, ht, hp⟩ := ih (msgs ++ [formatEntry e]) (codes ++ [e.errorId])
        refine ⟨e.errorId :: t, ?_, ?_⟩
        · rw [ht]; simp
        · intro c hc
          rcases List.mem_cons.mp hc with hc | hc
          · exact ⟨hc ▸ h, by simp [hc]⟩
          · have h1 := (hp c hc).1
            simp only [List.mem_append, List.mem_singleton] at h1
            push_neg at h1
            exact ⟨h1.1, by simp [(hp c hc).2]⟩

/-! ## Claim theorems -/

/-- C2: `build_request` sets the HTTP method to POST exactly when the
verb is `searchByImage` or `checkCompatibility`, and to GET for every
other verb. -/
theorem method_post_iff_image_or_compat (verb : String) :
    (determine_method verb = "POST" ↔
      (verb = "searchByImage" ∨ verb = "checkCompatibility")) ∧
    (¬(verb = "searchByImage" ∨ verb = "checkCompatibility") →
      determine_method verb = "GET") := by
  refine ⟨⟨fun h => ?_, fun h => by simp [determine_method, h]⟩,
    fun h => by simp [determine_method, h]⟩
  by_contra hc
  simp only [determine_method, if_neg hc] at h
  exact absurd h (by decide)

/-- Witness for C2: `searchByImage` gets POST, `search` gets GET. -/
theorem method_post_iff_image_or_compat_witness :
    determine_method "searchByImage" = "POST" ∧ determine_method "search" = "GET" :=
  ⟨(method_post_iff_image_or_compat "searchByImage").1.mpr (Or.inl rfl),
   (method_post_iff_image_or_compat "search").2 (by decide)⟩

/-- C4: query and body are mutually exclusive.  For every dict input,
GET verbs get an empty body and their parameters encoded as the query
mapping; the POST verbs get the whole dict JSON-serialized as the body
and a query of `None`. -/
theorem query_body_mutually_exclusive (verb : String) (d : PyDict) :
    (¬(verb = "searchByImage" ∨ verb = "checkCompatibility") →
       build_request_data verb (Option.some d) = "" ∧
       build_request_query verb (Option.some d) =
         Option.some (d.filterMap (fun kv =>
           if ¬(verb = "getItem" ∧ kv.1 = "item_id") ∧ kv.2 ≠ PyValue.none
           then Option.some (kv.1, smart_encode kv.2) else Option.none))) ∧
    ((verb = "searchByImage" ∨ verb = "checkCompatibility") →
       build_request_data verb (Option.some d) = jsonDumps d ∧
       build_request_query verb (Option.some d) = Option.none) := by
  constructor
  · intro h
    have hc : ¬(verb = "checkCompatibility") := fun hh => h (Or.inr hh)
    refine ⟨by simp [build_request_data, h], ?_⟩
    simp only [build_request_query, if_neg h, Option.some.injEq]
    refine List.filterMap_congr (fun kv _ => ?_)
    refine if_congr ?_ rfl rfl
    tauto
  · intro h
    exact ⟨by simp [build_request_data, h], by simp [build_request_query, h]⟩

/-- Witness for C4: for `search` the body is empty and the query is
the encoded mapping; for `searchByImage` the body is the serialized
dict and the query is `None`. -/
theorem query_body_mutually_exclusive_witness :
    build_request_data "search" (Option.some [("q", PyValue.str "test")]) = "" ∧
    build_request_query "search" (Option.some [("q", PyValue.str "test")]) =
      Option.some [("q", PyValue.str "test")] ∧
    build_request_data "searchByImage" (Option.some [("image", PyValue.str "abc")]) =
      "\x7b\"image\": \"abc\"\x7d" ∧
    build_request_query "searchByImage" (Option.some [("image", PyValue.str "abc")]) =
      Option.none := by
  have h1 := (query_body_mutually_exclusive "search" [("q", PyValue.str "test")]).1
    (by decide)
  have h2 := (query_body_mutually_exclusive "searchByImage"
    [("image", PyValue.str "abc")]).2 (Or.inl rfl)
  refine ⟨h1.1, ?_, ?_, h2.2⟩
  · rw [h1.2]; rfl
  · rw [h2.1]; rfl

/-- C10: for every GET verb, `build_request_query` silently drops every
key whose value is `None`: the query holds exactly the input entries
with a non-`None` value (minus `item_id` for `getItem`), values passed
through `smart_encode`. -/
theorem query_drops_none_values (verb : String) (d : PyDict)
    (hget : ¬(verb = "searchByImage" ∨ verb = "checkCompatibility")) :
    ∃ q, build_request_query verb (Option.some d) = Option.some q ∧
      (∀ k e, (k, e) ∈ q →
         ∃ v, (k, v) ∈ d ∧ v ≠ PyValue.none ∧ (verb = "getItem" → k ≠ "item_id") ∧
           e = smart_encode v) ∧
      (∀ k v, (k, v) ∈ d → v ≠ PyValue.none → (verb = "getItem" → k ≠ "item_id") →
         (k, smart_encode v) ∈ q) := by
  have hc : ¬(verb = "checkCompatibility") := fun hh => hget (Or.inr hh)
  refine ⟨_, by rw [build_request_query, if_neg hget], ?_, ?_⟩
  · intro k e hmem
    rw [List.mem_filterMap] at hmem
    obtain ⟨⟨k1, v1⟩, hkv, hf⟩ := hmem
    by_cases hcond :
        (¬(verb = "getItem" ∨ verb = "checkCompatibility") ∨ k1 ≠ "item_id")
          ∧ v1 ≠ PyValue.none
    · rw [if_pos hcond, Option.some.injEq] at hf
      obtain ⟨hk, he⟩ := Prod.mk.injEq .. ▸ hf
      subst hk
      exact ⟨v1, hkv, hcond.2, fun hg hk1 => by tauto, he.symm⟩
    · rw [if_neg hcond] at hf
      exact absurd hf (by simp)
  · intro k v hmem hv hk
    rw [List.mem_filterMap]
    refine ⟨(k, v), hmem, if_pos ⟨?_, hv⟩⟩
    by_cases hg : verb = "getItem"
    · exact Or.inr (hk hg)
    · exact Or.inl (fun hh => by tauto)

/-- Witness for C10: for `search`, a parameter passed as `None` never
reaches the query while the non-`None` parameter survives. -/
theorem query_drops_none_values_witness :
    ∃ q, build_request_query "search"
        (Option.some [("q", PyValue.str "test"), ("limit", PyValue.none)]) =
      Option.some q ∧
      (∀ k e, (k, e) ∈ q →
         ∃ v, (k, v) ∈ ([("q", PyValue.str "test"), ("limit", PyValue.none)] : PyDict) ∧
           v ≠ PyValue.none ∧ ("search" = "getItem" → k ≠ "item_id") ∧
           e = smart_encode v) ∧
      (∀ k v,
         (k, v) ∈ ([("q", PyValue.str "test"), ("limit", PyValue.none)] : PyDict) →
         v ≠ PyValue.none → ("search" = "getItem" → k ≠ "item_id") →
         (k, smart_encode v) ∈ q) :=
  query_drops_none_values "search" [("q", PyValue.str "test"), ("limit", PyValue.none)]
    (by decide)

/-- Counterexample for C5 as stated: with input
`\x7bitem_id: 123, foo: None\x7d`, the key `foo` is not kept — the
resulting query is empty rather than containing the encoded `foo`
entry the claim predicts. -/
theorem getitem_query_keeps_every_key_counterexample :
    build_request_query "getItem"
        (Option.some [("item_id", PyValue.int 123), ("foo", PyValue.none)]) =
      Option.some [] ∧
    build_request_query "getItem"
        (Option.some [("item_id", PyValue.int 123), ("foo", PyValue.none)]) ≠
      Option.some [("foo", smart_encode PyValue.none)] := by
  constructor
  · rfl
  · intro h
    simp [build_request_query, smart_encode] at h

/-- C5 (amended): for `getItem`, `build_request_query` excludes
`item_id` and keeps every other key whose value is not `None`, each
value passed through `smart_encode`. -/
theorem getitem_query_excludes_item_id (d : PyDict) :
    (∀ q, build_request_query "getItem" (Option.some d) = Option.some q →
       ("item_id" ∉ q.map Prod.fst ∧
        ∀ k v, (k, v) ∈ d → k ≠ "item_id" → v ≠ PyValue.none →
          (k, smart_encode v) ∈ q)) ∧
    build_request_query "getItem" (Option.some d) =
      Option.some (d.filterMap (fun kv =>
        if kv.1 ≠ "item_id" ∧ kv.2 ≠ PyValue.none
        then Option.some (kv.1, smart_encode kv.2) else Option.none)) := by
  have heq : build_request_query "getItem" (Option.some d) =
      Option.some (d.filterMap (fun kv =>
        if kv.1 ≠ "item_id" ∧ kv.2 ≠ PyValue.none
        then Option.some (kv.1, smart_encode kv.2) else Option.none)) := by
    rw [build_request_query, if_neg (by decide)]
    rw [Option.some.injEq]
    refine List.filterMap_congr (fun kv _ => ?_)
    refine if_congr ?_ rfl rfl
    constructor
    · rintro ⟨hl | hl, hr⟩
      · exact absurd (Or.inl rfl) hl
      · exact ⟨hl, hr⟩
    · rintro ⟨hl, hr⟩
      exact ⟨Or.inr hl, hr⟩
  refine ⟨?_, heq⟩
  intro q hq
  rw [heq, Option.some.injEq] at hq
  subst hq
  constructor
  · intro hmem
    rw [List.mem_map] at hmem
    obtain ⟨⟨k1, e1⟩, hmem, hfst⟩ := hmem
    rw [List.mem_filterMap] at hmem
    obtain ⟨⟨k2, v2⟩, _, hf⟩ := hmem
    by_cases hcond : k2 ≠ "item_id" ∧ v2 ≠ PyValue.none
    · rw [if_pos hcond, Option.some.injEq] at hf
      obtain ⟨hk, _⟩ := Prod.mk.injEq .. ▸ hf
      exact hcond.1 (hk.trans hfst)
    · rw [if_neg hcond] at hf
      exact absurd hf (by simp)
  · intro k v hmem hk hv
    rw [List.mem_filterMap]
    exact ⟨(k, v), hmem, if_pos ⟨hk, hv⟩⟩

/-- Witness for C5 (amended): the spec example — input
`\x7bitem_id: 123, fieldgroups: PRODUCT\x7d` yields exactly
`\x7bfieldgroups: PRODUCT\x7d`. -/
theorem getitem_query_excludes_item_id_witness :
    build_request_query "getItem"
        (Option.some [("item_id", PyValue.int 123),
                      ("fieldgroups", PyValue.str "PRODUCT")]) =
      Option.some [("fieldgroups", PyValue.str "PRODUCT")] := by
  have h := (getitem_query_excludes_item_id
    [("item_id", PyValue.int 123), ("fieldgroups", PyValue.str "PRODUCT")]).2
  rw [h]; rfl

/-- C3: for `getItem` and `checkCompatibility`, `build_request_url`
raises `ValueError` iff the request dict is absent or has no `item_id`
key; otherwise it returns the base URL with `item_id` substituted into
the verb's path template. -/
theorem build_request_url_requires_item_id (https : Bool) (domain uri : String)
    (requestDict : Option PyDict) (verb : String)
    (hverb : verb = "getItem" ∨ verb = "checkCompatibility") :
    ((∃ e, build_request_url https domain uri requestDict verb = Except.error e) ↔
       (requestDict = Option.none ∨
        ∃ d, requestDict = Option.some d ∧ List.lookup "item_id" d = Option.none)) ∧
    (∀ d v, requestDict = Option.some d →
       List.lookup "item_id" d = Option.some v →
       build_request_url https domain uri requestDict verb =
         Except.ok (httpSsl https ++ "://" ++ domain ++ uri ++
           formatTemplate (endpoint_map verb) v)) := by
  rcases requestDict with _ | d
  · constructor
    · constructor
      · intro _; exact Or.inl rfl
      · intro _
        refine ⟨"item_id is required for getItem and checkCompatibility", ?_⟩
        show build_request_url https domain uri Option.none verb = _
        rw [build_request_url.eq_def, if_pos hverb]
    · intro d v hrd
      exact absurd hrd (by simp)
  · have hurl : build_request_url https domain uri (Option.some d) verb =
        (if d.isEmpty then
          Except.error "item_id is required for getItem and checkCompatibility"
        else
          match List.lookup "item_id" d with
          | Option.none =>
              Except.error "item_id is required for getItem and checkCompatibility"
          | Option.some v => Except.ok (httpSsl https ++ "://" ++ domain ++ uri ++
              formatTemplate (endpoint_map verb) v)) := by
      rw [build_request_url.eq_def, if_pos hverb]
    constructor
    · constructor
      · rintro ⟨e, he⟩
        rw [hurl] at he
        refine Or.inr ⟨d, rfl, ?_⟩
        by_cases hemp : d.isEmpty
        · rw [List.isEmpty_iff] at hemp
          simp [hemp]
        · rw [if_neg hemp] at he
          match hl : List.lookup "item_id" d with
          | Option.none => rfl
          | Option.some v => rw [hl] at he; exact absurd he (by simp)
      · rintro (hrd | ⟨d1, hrd, hl⟩)
        · exact absurd hrd (by simp)
        · rw [Option.some.injEq] at hrd
          subst hrd
          refine ⟨"item_id is required for getItem and checkCompatibility", ?_⟩
          rw [hurl]
          by_cases hemp : d.isEmpty
          · rw [if_pos hemp]
          · rw [if_neg hemp, hl]
    · intro d1 v hrd hl
      rw [Option.some.injEq] at hrd
      subst hrd
      have hne : ¬d.isEmpty := by
        intro hemp
        rw [List.isEmpty_iff] at hemp
        rw [hemp] at hl
        exact absurd hl (by simp)
      rw [hurl, if_neg hne, hl]

/-- Witness for C3: `getItem` with `item_id = 123` yields the base URL
ending in `/item/123`, and `getItem` with an empty request dict raises
`ValueError`. -/
theorem build_request_url_requires_item_id_witness :
    build_request_url true "api.ebay.com" "/buy/browse/v1"
        (Option.some [("item_id", PyValue.int 123)]) "getItem" =
      Except.ok "https://api.ebay.com/buy/browse/v1/item/123" ∧
    (∃ e, build_request_url true "api.ebay.com" "/buy/browse/v1"
        (Option.some []) "getItem" = Except.error e) := by
  constructor
  · have h := (build_request_url_requires_item_id true "api.ebay.com"
      "/buy/browse/v1" (Option.some [("item_id", PyValue.int 123)]) "getItem"
      (Or.inl rfl)).2 [("item_id", PyValue.int 123)] (PyValue.int 123) rfl rfl
    rw [h]; rfl
  · exact (build_request_url_requires_item_id true "api.ebay.com"
      "/buy/browse/v1" (Option.some []) "getItem" (Or.inl rfl)).1.mpr
      (Or.inr ⟨[], rfl, rfl⟩)

/-- C7: on any non-200 response, `process_response` records the HTTP
reason phrase as the response error (raising nothing — it is a total
state update), and `_get_resp_body_errors` returns an empty error list
without touching the body or the state. -/
theorem non_200_records_reason (st : BrowseState) (resp : HttpResponse)
    (h : resp.statusCode ≠ 200) :
    process_response st resp = { st with responseError := Option.some resp.reason } ∧
    (st.respBodyErrors = [] → get_resp_body_errors st resp = ([], st)) := by
  constructor
  · rw [process_response, if_pos h]
  · intro hfresh
    rw [get_resp_body_errors, if_neg (by simp [hfresh]), if_pos (Or.inr h)]

/-- Witness for C7: a fresh state and a 400 response. -/
theorem non_200_records_reason_witness :
    process_response
        ⟨Option.some "search", [], [], [], Option.none⟩
        ⟨400, "Bad Request", ⟨[], []⟩⟩ =
      ⟨Option.some "search", [], [], [], Option.some "Bad Request"⟩ ∧
    get_resp_body_errors
        ⟨Option.some "search", [], [], [], Option.none⟩
        ⟨400, "Bad Request", ⟨[], []⟩⟩ =
      ([], ⟨Option.some "search", [], [], [], Option.none⟩) := by
  have h := non_200_records_reason
    ⟨Option.some "search", [], [], [], Option.none⟩
    ⟨400, "Bad Request", ⟨[], []⟩⟩ (by decide)
  exact ⟨h.1, h.2 rfl⟩

/-- C8: on a 200 response, the error extractor returns exactly one
formatted `Category: X, Code: Y, message` string per entry of the
`errors` array, while the `warnings` array is formatted into the
separate warnings list and contributes nothing to the returned error
list. -/
theorem errors_formatted_one_per_entry (st : BrowseState) (resp : HttpResponse)
    (h200 : resp.statusCode = 200) (hverb : st.verb ≠ Option.none)
    (hfresh : st.respBodyErrors = []) :
    (get_resp_body_errors st resp).1 = resp.body.errors.map formatEntry ∧
    (get_resp_body_errors st resp).2.respBodyWarnings =
      resp.body.warnings.map formatEntry := by
  have hskip : ¬(st.verb = Option.none ∨ resp.statusCode ≠ 200) := by
    rintro (hv | hs)
    · exact hverb hv
    · exact hs h200
  rw [get_resp_body_errors, if_neg (by simp [hfresh]), if_neg hskip]
  exact ⟨procEntries_fst resp.body.errors [] [],
    procEntries_fst resp.body.warnings [] (procEntries resp.body.errors [] []).2⟩

/-- Witness for C8: a body with one error entry yields exactly that one
formatted string; a body with only a warning yields zero errors (and
the warning formatted into the warnings list). -/
theorem errors_formatted_one_per_entry_witness :
    (get_resp_body_errors
        ⟨Option.some "search", [], [], [], Option.none⟩
        ⟨200, "OK",
          ⟨[⟨Option.some (PyValue.str "123"), Option.some (PyValue.str "ERROR"),
             Option.some (PyValue.str "Test error")⟩], []⟩⟩).1 =
      ["Category: ERROR, Code: 123, Test error"] ∧
    (get_resp_body_errors
        ⟨Option.some "search", [], [], [], Option.none⟩
        ⟨200, "OK",
          ⟨[], [⟨Option.some (PyValue.str "456"), Option.some (PyValue.str "WARNING"),
                 Option.some (PyValue.str "Test warning")⟩]⟩⟩).1 = [] ∧
    (get_resp_body_errors
        ⟨Option.some "search", [], [], [], Option.none⟩
        ⟨200, "OK",
          ⟨[], [⟨Option.some (PyValue.str "456"), Option.some (PyValue.str "WARNING"),
                 Option.some (PyValue.str "Test warning")⟩]⟩⟩).2.respBodyWarnings =
      ["Category: WARNING, Code: 456, Test warning"] := by
  have h1 := errors_formatted_one_per_entry
    ⟨Option.some "search", [], [], [], Option.none⟩
    ⟨200, "OK",
      ⟨[⟨Option.some (PyValue.str "123"), Option.some (PyValue.str "ERROR"),
         Option.some (PyValue.str "Test error")⟩], []⟩⟩ rfl (by simp) rfl
  have h2 := errors_formatted_one_per_entry
    ⟨Option.some "search", [], [], [], Option.none⟩
    ⟨200, "OK",
      ⟨[], [⟨Option.some (PyValue.str "456"), Option.some (PyValue.str "WARNING"),
             Option.some (PyValue.str "Test warning")⟩]⟩⟩ rfl (by simp) rfl
  refine ⟨?_, ?_, ?_⟩
  · rw [h1.1]; rfl
  · rw [h2.1]; rfl
  · rw [h2.2]; rfl

/-- C9: the `resp_codes` list deduplicates codes across both arrays
through one shared list — it has no duplicates, holds exactly the
`errorId`s occurring in the `errors` or `warnings` arrays, and consists
of the codes collected from the `errors` array followed only by warning
codes not already collected there. -/
theorem resp_codes_shared_dedup (st : BrowseState) (resp : HttpResponse)
    (h200 : resp.statusCode = 200) (hverb : st.verb ≠ Option.none)
    (hfresh : st.respBodyErrors = []) :
    ((get_resp_body_errors st resp).2.respCodes).Nodup ∧
    (∀ c, c ∈ (get_resp_body_errors st resp).2.respCodes ↔
       (c ∈ resp.body.errors.map (fun e => e.errorId) ∨
        c ∈ resp.body.warnings.map (fun e => e.errorId))) ∧
    (∃ t, (get_resp_body_errors st resp).2.respCodes =
        (procEntries resp.body.errors [] []).2 ++ t ∧
      ∀ c ∈ t, c ∉ (procEntries resp.body.errors [] []).2 ∧
        c ∈ resp.body.warnings.map (fun e => e.errorId)) := by
  have hskip : ¬(st.verb = Option.none ∨ resp.statusCode ≠ 200) := by
    rintro (hv | hs)
    · exact hverb hv
    · exact hs h200
  have hcodes : (get_resp_body_errors st resp).2.respCodes =
      (procEntries resp.body.warnings [] (procEntries resp.body.errors [] []).2).2 := by
    rw [get_resp_body_errors, if_neg (by simp [hfresh]), if_neg hskip]
  rw [hcodes]
  refine ⟨?_, ?_, ?_⟩
  · exact procEntries_snd_nodup resp.body.warnings []
      (procEntries resp.body.errors [] []).2
      (procEntries_snd_nodup resp.body.errors [] [] List.nodup_nil)
  · intro c
    rw [procEntries_snd_mem c resp.body.warnings [],
      procEntries_snd_mem c resp.body.errors [] []]
    simp
  · exact procEntries_snd_append resp.body.warnings []
      (procEntries resp.body.errors [] []).2

/-- Witness for C9: a 200 body whose warning repeats the error's
`errorId 123` — the code list is `[123, 456]`, with the duplicate
warning code contributing nothing. -/
theorem resp_codes_shared_dedup_witness :
    ((get_resp_body_errors
        ⟨Option.some "search", [], [], [], Option.none⟩
        ⟨200, "OK",
          ⟨[⟨Option.some (PyValue.str "123"), Option.some (PyValue.str "ERROR"),
             Option.some (PyValue.str "boom")⟩],
           [⟨Option.some (PyValue.str "123"), Option.some (PyValue.str "WARNING"),
             Option.some (PyValue.str "dup")⟩,
            ⟨Option.some (PyValue.str "456"), Option.some (PyValue.str "WARNING"),
             Option.some (PyValue.str "fresh")⟩]⟩⟩).2.respCodes).Nodup ∧
    (get_resp_body_errors
        ⟨Option.some "search", [], [], [], Option.none⟩
        ⟨200, "OK",
          ⟨[⟨Option.some (PyValue.str "123"), Option.some (PyValue.str "ERROR"),
             Option.some (PyValue.str "boom")⟩],
           [⟨Option.some (PyValue.str "123"), Option.some (PyValue.str "WARNING"),
             Option.some (PyValue.str "dup")⟩,
            ⟨Option.some (PyValue.str "456"), Option.some (PyValue.str "WARNING"),
             Option.some (PyValue.str "fresh")⟩]⟩⟩).2.respCodes =
      [Option.some (PyValue.str "123"), Option.some (PyValue.str "456")] := by
  have h := resp_codes_shared_dedup
    ⟨Option.some "search", [], [], [], Option.none⟩
    ⟨200, "OK",
      ⟨[⟨Option.some (PyValue.str "123"), Option.some (PyValue.str "ERROR"),
         Option.some (PyValue.str "boom")⟩],
       [⟨Option.some (PyValue.str "123"), Option.some (PyValue.str "WARNING"),
         Option.some (PyValue.str "dup")⟩,
        ⟨Option.some (PyValue.str "456"), Option.some (PyValue.str "WARNING"),
         Option.some (PyValue.str "fresh")⟩]⟩⟩ rfl (by simp) rfl
  exact ⟨h.1, rfl⟩

/-- C1: the token accessor is a lazy cache.  With a cached, unexpired
token it returns that token's `access_token` with the cache untouched
and zero network calls, whatever the fetch oracle holds; only with no
cached token or an expired one does it run the client-credentials
refresh, storing the fetched token as the new cache. -/
theorem access_token_lazy_cache (appid certid : Option String)
    (st : TokenCacheState) (now : Nat) (fetchResult : Except String OAuthToken) :
    (∀ t, st.token = Option.some t → tokenIsExpired now t = false →
       access_token appid certid st now fetchResult =
         (Except.ok (t.accessToken, st), 0)) ∧
    ((st.token = Option.none ∨
        ∃ t, st.token = Option.some t ∧ tokenIsExpired now t = true) →
       (access_token appid certid st now fetchResult =
          fetchAndCacheToken appid certid fetchResult ∧
        ∀ tok, fetchResult = Except.ok tok →
          configTruthy appid = true → configTruthy certid = true →
          access_token appid certid st now fetchResult =
            (Except.ok (tok.accessToken, ⟨Option.some tok⟩), 1))) := by
  constructor
  · intro t ht hexp
    simp [access_token, ht, hexp]
  · intro h
    have heq := access_token_refresh_eq appid certid st now fetchResult h
    refine ⟨heq, fun tok hf ha hc => ?_⟩
    rw [heq, fetchAndCacheToken.eq_def, if_neg (by simp [ha, hc]), hf]

/-- Witness for C1: an unexpired cached token is returned as is with no
fetch; with an empty cache the fetched token is returned and cached. -/
theorem access_token_lazy_cache_witness :
    access_token (Option.some "id") (Option.some "secret")
        ⟨Option.some ⟨"tok", 100⟩⟩ 5 (Except.ok ⟨"new", 200⟩) =
      (Except.ok ("tok", ⟨Option.some ⟨"tok", 100⟩⟩), 0) ∧
    access_token (Option.some "id") (Option.some "secret")
        ⟨Option.none⟩ 5 (Except.ok ⟨"new", 200⟩) =
      (Except.ok ("new", ⟨Option.some ⟨"new", 200⟩⟩), 1) :=
  ⟨(access_token_lazy_cache (Option.some "id") (Option.some "secret")
      ⟨Option.some ⟨"tok", 100⟩⟩ 5 (Except.ok ⟨"new", 200⟩)).1
      ⟨"tok", 100⟩ rfl (by decide),
   ((access_token_lazy_cache (Option.some "id") (Option.some "secret")
      ⟨Option.none⟩ 5 (Except.ok ⟨"new", 200⟩)).2 (Or.inl rfl)).2
      ⟨"new", 200⟩ rfl (by decide) (by decide)⟩

/-- C6: when a refresh is needed, a falsy `appid` or `certid` raises
`ValueError` with zero network calls performed; a failure of the token
fetch itself raises a `ConnectionError` wrapping the underlying
message. -/
theorem access_token_error_paths (appid certid : Option String)
    (st : TokenCacheState) (now : Nat) (fetchResult : Except String OAuthToken)
    (hrefresh : st.token = Option.none ∨
        ∃ t, st.token = Option.some t ∧ tokenIsExpired now t = true) :
    ((configTruthy appid = false ∨ configTruthy certid = false) →
       access_token appid certid st now fetchResult =
         (Except.error (TokenError.valueError
           "appid (client id) and certid (client secret) are required for OAuth"),
          0)) ∧
    (configTruthy appid = true → configTruthy certid = true →
       ∀ e, fetchResult = Except.error e →
         access_token appid certid st now fetchResult =
           (Except.error (TokenError.connectionError
             ("Failed to get access token: " ++ e)), 1)) := by
  have heq := access_token_refresh_eq appid certid st now fetchResult hrefresh
  constructor
  · intro hcred
    rw [heq, fetchAndCacheToken.eq_def, if_pos (by rcases hcred with h | h <;> simp [h])]
  · intro ha hc e hf
    rw [heq, fetchAndCacheToken.eq_def, if_neg (by simp [ha, hc]), hf]

/-- Witness for C6: missing credentials raise `ValueError` with no
network call; a fetch failure raises the wrapping `ConnectionError`. -/
theorem access_token_error_paths_witness :
    access_token Option.none Option.none ⟨Option.none⟩ 0
        (Except.ok ⟨"x", 1⟩) =
      (Except.error (TokenError.valueError
        "appid (client id) and certid (client secret) are required for OAuth"), 0) ∧
    access_token (Option.some "id") (Option.some "secret") ⟨Option.none⟩ 0
        (Except.error "boom") =
      (Except.error (TokenError.connectionError
        "Failed to get access token: boom"), 1) := by
  constructor
  · exact (access_token_error_paths Option.none Option.none ⟨Option.none⟩ 0
      (Except.ok ⟨"x", 1⟩) (Or.inl rfl)).1 (Or.inl rfl)
  · have h := (access_token_error_paths (Option.some "id") (Option.some "secret")
      ⟨Option.none⟩ 0 (Except.error "boom") (Or.inl rfl)).2
      (by decide) (by decide) "boom" rfl
    rw [h]
    rfl
